import Mathlib

/-! rotonde: the websocket bridge (`websocketconnection.go`)

A shallow embedding of `Start` and `startConnection`.

* Values of Go's `interface{}` that travel on the endpoint's two channels and in
  `Packet.Payload` are the type `Value`; the five domain records are type parameters.
* The two goroutines of `startConnection` are the functions `outboundLoop` (the
  `for dispatcherPacket := range c.InChan` loop) and `inboundLoop` (the `for` loop around
  `conn.NextReader`).  Variables that the source declares outside a loop (`packet`,
  `dispatcherPacket`) are explicit loop state.
* Calls into libraries that are not part of the repository (`json.Marshal`,
  `json.Decoder.Decode`, `mapstructure.Decode`, the socket) are parameters: the record
  `Libs`, the write oracle `writeErr` and the script of `conn.NextReader` results.
* The `sync.WaitGroup` choreography of `startConnection` is the interleaving transition
  system `next` on `ConnState`.
-/

namespace Rotonde

/-- Byte slices (`[]byte`); the `nil` slice is the empty list. -/
abbrev Bytes := List UInt8

/-- Go `error` values, kept as their text. -/
abbrev Err := String

/-- Dynamic values (`interface{}`): what is received from `c.InChan`, sent on `c.OutChan`
and stored in `Packet.Payload`.  `other` stands for a value of any other dynamic type (for
instance the generic JSON tree that `json.Decoder.Decode` stores in `Payload`). -/
inductive Value (E A S U D J : Type) where
  | nil
  | event (data : E)
  | action (data : A)
  | subscription (data : S)
  | unsubscription (data : U)
  | definition (data : D)
  | other (data : J)
deriving DecidableEq, Repr

/-- The struct `Packet` of the source: `Type string` and `Payload interface{}`. -/
structure Packet (E A S U D J : Type) where
  type : String
  payload : Value E A S U D J
deriving DecidableEq, Repr

/-- The zero value `Packet{}`. -/
def Packet.zero {E A S U D J : Type} : Packet E A S U D J :=
  ⟨"", Value.nil⟩

/-- Library calls made by `startConnection`.
`marshal` is `json.Marshal(packet)`; `unmarshal` is `json.NewDecoder(reader).Decode(&packet)`
on a fresh `Packet{}`; `decodeEvent payload` is the record left in `event` by
`event := Event{}; mapstructure.Decode(payload, &event)` (the error result of
`mapstructure.Decode` is discarded by the source), and likewise for the other four. -/
structure Libs (E A S U D J : Type) where
  marshal : Packet E A S U D J → Except Err Bytes
  unmarshal : Bytes → Except Err (Packet E A S U D J)
  decodeEvent : Value E A S U D J → E
  decodeAction : Value E A S U D J → A
  decodeSubscription : Value E A S U D J → S
  decodeUnsubscription : Value E A S U D J → U
  decodeDefinition : Value E A S U D J → D

/-- Lines written to the log by the two loops. -/
inductive LogEntry (E A S U D J : Type) where
  | info (packet : Packet E A S U D J)
  | warning (err : Err)
  | println (err : Err)
deriving DecidableEq, Repr

section Outbound

variable {E A S U D J : Type}

/-- The type switch at the top of the outbound loop body.  Returns the value of the
variable `packet` after the switch and what the switch logged.  In the `default` branch
`packet` is not assigned: it keeps the value it had before. -/
def encodeSwitch (packet : Packet E A S U D J) (dispatcherPacket : Value E A S U D J) :
    Packet E A S U D J × List (LogEntry E A S U D J) :=
  match dispatcherPacket with
  | Value.event data => (⟨"event", Value.event data⟩, [])
  | Value.action data => (⟨"action", Value.action data⟩, [])
  | Value.definition data => (⟨"def", Value.definition data⟩, [])
  | _ => (packet, [LogEntry.info packet])

/-- The statement `jsonPacket, err = json.Marshal(packet)` followed by
`if err != nil { log.Warning(err) }`: the value of `jsonPacket` afterwards (`nil` when
`json.Marshal` fails) and what was logged. -/
def marshalStep (lib : Libs E A S U D J) (packet : Packet E A S U D J) :
    Bytes × List (LogEntry E A S U D J) :=
  match lib.marshal packet with
  | Except.ok jsonPacket => (jsonPacket, [])
  | Except.error err => ([], [LogEntry.warning err])

/-- Why the outbound goroutine returned. -/
inductive OutStop where
  | queueClosed
  | writeFailed
deriving DecidableEq, Repr

/-- Observable behaviour of the outbound goroutine: the frames handed to
`conn.WriteMessage` in order (the failed one included), the number of messages received
from `c.InChan`, the log, and the reason of the return. -/
structure OutResult (E A S U D J : Type) where
  writes : List Bytes
  consumed : Nat
  log : List (LogEntry E A S U D J)
  stop : OutStop

/-- The loop `for dispatcherPacket := range c.InChan { ... }`.
`queue` is what `c.InChan` delivers until it is closed; `writeErr n` is the error result of
the `n`-th call of `conn.WriteMessage` (`none` is `nil`); `packet` is the loop-carried
variable and `n` the number of writes made so far. -/
def outboundLoop (lib : Libs E A S U D J) (writeErr : Nat → Option Err)
    (packet : Packet E A S U D J) (n : Nat) : List (Value E A S U D J) → OutResult E A S U D J
  | [] => ⟨[], 0, [], OutStop.queueClosed⟩
  | dispatcherPacket :: rest =>
    let sw := encodeSwitch packet dispatcherPacket
    let ms := marshalStep lib sw.1
    match writeErr n with
    | some err => ⟨[ms.1], 1, sw.2 ++ ms.2 ++ [LogEntry.warning err], OutStop.writeFailed⟩
    | none =>
      let r := outboundLoop lib writeErr sw.1 (n + 1) rest
      ⟨ms.1 :: r.writes, r.consumed + 1, sw.2 ++ ms.2 ++ r.log, r.stop⟩

/-- The outbound goroutine of `startConnection`: the loop entered with `packet` at its
zero value and no write made yet. -/
def outboundFlow (lib : Libs E A S U D J) (writeErr : Nat → Option Err)
    (queue : List (Value E A S U D J)) : OutResult E A S U D J :=
  outboundLoop lib writeErr Packet.zero 0 queue

/-- Messages for which the type switch has a case: `Event`, `Action`, `Definition`. -/
def hasOutboundTag : Value E A S U D J → Bool
  | Value.event _ => true
  | Value.action _ => true
  | Value.definition _ => true
  | _ => false

end Outbound

section Inbound

variable {E A S U D J : Type}

/-- The constant `websocket.TextMessage`. -/
def TextMessage : Nat := 1

/-- One result of `conn.NextReader()`: an error, or a message type together with the
bytes its reader yields. -/
inductive ReadResult where
  | error (err : Err)
  | message (messageType : Nat) (data : Bytes)
deriving DecidableEq, Repr

/-- The `switch packet.Type` of the inbound loop body.  Returns the value of the variable
`dispatcherPacket` after the switch.  The switch has no `default`: for any other tag
`dispatcherPacket` keeps the value it had before. -/
def decodeSwitch (lib : Libs E A S U D J) (dispatcherPacket : Value E A S U D J)
    (packet : Packet E A S U D J) : Value E A S U D J :=
  if packet.type = "event" then Value.event (lib.decodeEvent packet.payload)
  else if packet.type = "action" then Value.action (lib.decodeAction packet.payload)
  else if packet.type = "sub" then Value.subscription (lib.decodeSubscription packet.payload)
  else if packet.type = "unsub" then
    Value.unsubscription (lib.decodeUnsubscription packet.payload)
  else if packet.type = "def" then Value.definition (lib.decodeDefinition packet.payload)
  else dispatcherPacket

/-- Why the inbound goroutine is no longer reading: `conn.NextReader` returned an error
(the goroutine returned), or the script of reads is used up and the goroutine is blocked in
`conn.NextReader`, still running. -/
inductive InStop where
  | readFailed
  | awaiting
deriving DecidableEq, Repr

/-- Observable behaviour of the inbound goroutine: the values sent on `c.OutChan` in
order, the number of successful `conn.NextReader` calls, the log, and where it stands. -/
structure InResult (E A S U D J : Type) where
  sent : List (Value E A S U D J)
  framesRead : Nat
  log : List (LogEntry E A S U D J)
  stop : InStop

/-- The loop `for { messageType, reader, err := conn.NextReader() ... }`.
`dispatcherPacket` is the loop-carried variable; the list is the script of results of the
successive `conn.NextReader` calls.  The send `c.OutChan <- dispatcherPacket` is taken to
complete (the dispatcher receives). -/
def inboundLoop (lib : Libs E A S U D J) (dispatcherPacket : Value E A S U D J) :
    List ReadResult → InResult E A S U D J
  | [] => ⟨[], 0, [], InStop.awaiting⟩
  | ReadResult.error err :: _ => ⟨[], 0, [LogEntry.println err], InStop.readFailed⟩
  | ReadResult.message messageType data :: rest =>
    if messageType = TextMessage then
      match lib.unmarshal data with
      | Except.error err =>
        let r := inboundLoop lib dispatcherPacket rest
        ⟨r.sent, r.framesRead + 1, LogEntry.warning err :: r.log, r.stop⟩
      | Except.ok packet =>
        let dp := decodeSwitch lib dispatcherPacket packet
        let r := inboundLoop lib dp rest
        ⟨dp :: r.sent, r.framesRead + 1, r.log, r.stop⟩
    else
      let r := inboundLoop lib dispatcherPacket rest
      ⟨r.sent, r.framesRead + 1, r.log, r.stop⟩

/-- The inbound goroutine of `startConnection`: the loop entered with
`dispatcherPacket` at its zero value, the `nil` interface. -/
def inboundFlow (lib : Libs E A S U D J) (reads : List ReadResult) : InResult E A S U D J :=
  inboundLoop lib Value.nil reads

/-- The frames the outbound flow writes for `queue`, with every write succeeding, read back
as text frames by the inbound flow of a peer: the values that flow sends. -/
def roundTrip (lib : Libs E A S U D J) (queue : List (Value E A S U D J)) :
    List (Value E A S U D J) :=
  (inboundFlow lib
    ((outboundFlow lib (fun _ => none) queue).writes.map (ReadResult.message TextMessage))).sent

end Inbound

section Handler

/-- Lines written to the log by the handler that `Start` registers for `/uav`. -/
inductive HandlerLog where
  | debug (msg : String)
  | fatal (err : Err)
  | println (msg : String)
deriving DecidableEq, Repr

/-- Whether the server process is alive; `exited code` is the state after `os.Exit(code)`. -/
inductive ProcessStatus where
  | running
  | exited (code : Nat)
deriving DecidableEq, Repr

/-- What `Start` has done so far: the process status, the log, the number of requests whose
handler ran, the number of endpoints created by `NewConnection` and registered with
`d.AddConnection` (both inside `startConnection`), and the number of sockets closed by the
deferred `conn.Close()`. -/
structure ServerState where
  status : ProcessStatus
  log : List HandlerLog
  handled : Nat
  endpoints : Nat
  socketsClosed : Nat
deriving DecidableEq, Repr

/-- The server right after `Start` has registered the handler and begun to listen. -/
def ServerState.init : ServerState :=
  ⟨ProcessStatus.running, [], 0, 0, 0⟩

/-- The handler body for one request; `upgradeErr` is the error result of
`upgrader.Upgrade(w, r, nil)` (`none` is `nil`).
On an upgrade error the source calls `log.Fatal(err)`, which in logrus writes the entry and
then calls `os.Exit(1)`: nothing after it runs, neither `defer conn.Close()` nor
`startConnection`.  Otherwise `startConnection` runs to its end (one endpoint created and
registered) and the deferred `conn.Close()` follows.  A process that has exited handles
nothing. -/
def handleRequest (s : ServerState) (upgradeErr : Option Err) : ServerState :=
  match s.status with
  | ProcessStatus.exited _ => s
  | ProcessStatus.running =>
    match upgradeErr with
    | some err =>
      ⟨ProcessStatus.exited 1,
        s.log ++ [HandlerLog.debug "Connection received", HandlerLog.fatal err],
        s.handled + 1, s.endpoints, s.socketsClosed⟩
    | none =>
      ⟨ProcessStatus.running,
        s.log ++ [HandlerLog.debug "Connection received", HandlerLog.println "Treating messages"],
        s.handled + 1, s.endpoints + 1, s.socketsClosed + 1⟩

/-- The listener serving a sequence of connection requests, each given by the outcome of
its upgrade. -/
def serve (requests : List (Option Err)) : ServerState :=
  requests.foldl handleRequest ServerState.init

end Handler

section Lifecycle

/-- Program points of the body of `startConnection` (the goroutine that calls it). -/
inductive MainPc where
  /-- Before `c := NewConnection(); d.AddConnection(c); defer c.Close()`. -/
  | entry
  /-- Before the first `wg.Add(1)`. -/
  | registered
  /-- Before `go func() { ... }()` of the outbound flow. -/
  | added1
  /-- Before the second `wg.Add(1)`. -/
  | spawned1
  /-- Before `go func() { ... }()` of the inbound flow. -/
  | added2
  /-- In `wg.Wait()`. -/
  | waiting
  /-- The body has returned from `wg.Wait()`; the deferred `c.Close()` is about to run. -/
  | returning
  /-- The deferred `c.Close()` has run and `startConnection` has returned. -/
  | returned
deriving DecidableEq, Repr

/-- Status of one flow goroutine: not launched yet, executing its loop, loop left with the
deferred `wg.Done()` still to run, or `wg.Done()` executed. -/
inductive Flow where
  | notStarted
  | running
  | finished
  | done
deriving DecidableEq, Repr

/-- State of one connection: the program point of `startConnection`, the two flows, the
counter of the `sync.WaitGroup`, and the number of calls of `c.Close()` made. -/
structure ConnState where
  main : MainPc
  outbound : Flow
  inbound : Flow
  wg : Int
  closeCalls : Nat
deriving DecidableEq, Repr

/-- The state on entry to `startConnection`. -/
def ConnState.init : ConnState :=
  ⟨MainPc.entry, Flow.notStarted, Flow.notStarted, 0, 0⟩

/-- The steps the body of `startConnection` can take; `wg.Wait()` returns only when the
counter is zero. -/
def mainStep (s : ConnState) : List ConnState :=
  match s.main with
  | MainPc.entry => [⟨MainPc.registered, s.outbound, s.inbound, s.wg, s.closeCalls⟩]
  | MainPc.registered => [⟨MainPc.added1, s.outbound, s.inbound, s.wg + 1, s.closeCalls⟩]
  | MainPc.added1 => [⟨MainPc.spawned1, Flow.running, s.inbound, s.wg, s.closeCalls⟩]
  | MainPc.spawned1 => [⟨MainPc.added2, s.outbound, s.inbound, s.wg + 1, s.closeCalls⟩]
  | MainPc.added2 => [⟨MainPc.waiting, s.outbound, Flow.running, s.wg, s.closeCalls⟩]
  | MainPc.waiting =>
    if s.wg = 0 then [⟨MainPc.returning, s.outbound, s.inbound, s.wg, s.closeCalls⟩] else []
  | MainPc.returning => [⟨MainPc.returned, s.outbound, s.inbound, s.wg, s.closeCalls + 1⟩]
  | MainPc.returned => []

/-- The steps of the outbound goroutine: its loop ends (a failed write or `c.InChan`
closed), then the deferred `wg.Done()` decrements the counter. -/
def outboundStep (s : ConnState) : List ConnState :=
  match s.outbound with
  | Flow.running => [⟨s.main, Flow.finished, s.inbound, s.wg, s.closeCalls⟩]
  | Flow.finished => [⟨s.main, Flow.done, s.inbound, s.wg - 1, s.closeCalls⟩]
  | _ => []

/-- The steps of the inbound goroutine: its loop ends (a failed read), then the deferred
`wg.Done()` decrements the counter. -/
def inboundStep (s : ConnState) : List ConnState :=
  match s.inbound with
  | Flow.running => [⟨s.main, s.outbound, Flow.finished, s.wg, s.closeCalls⟩]
  | Flow.finished => [⟨s.main, s.outbound, Flow.done, s.wg - 1, s.closeCalls⟩]
  | _ => []

/-- All successors of a state under any interleaving of the three goroutines. -/
def next (s : ConnState) : List ConnState :=
  mainStep s ++ outboundStep s ++ inboundStep s

/-- One transition of the connection. -/
def Step (s t : ConnState) : Prop :=
  t ∈ next s

instance Step.decidable (s t : ConnState) : Decidable (Step s t) := by
  unfold Step
  infer_instance

/-- States that some run of `startConnection` passes through. -/
inductive Reachable : ConnState → Prop where
  | init : Reachable ConnState.init
  | step {s t : ConnState} : Reachable s → Step s t → Reachable t

/-- A flow has terminated when its loop has been left. -/
def Flow.terminated : Flow → Bool
  | Flow.finished => true
  | Flow.done => true
  | _ => false

/-- The states of the per-connection state machine of the specification. -/
inductive Phase where
  | connecting
  | active
  | draining
  | closed
deriving DecidableEq, Repr

/-- The specification state a connection state stands for: `Closed` once `c.Close()` has
run, `Connecting` until both flows are launched, `Active` while both run, `Draining` as
soon as one has stopped. -/
def phase (s : ConnState) : Phase :=
  if s.main = MainPc.returned then Phase.closed
  else if s.outbound = Flow.notStarted ∨ s.inbound = Flow.notStarted then Phase.connecting
  else if s.outbound.terminated ∨ s.inbound.terminated then Phase.draining
  else Phase.active

/-- Checks that every run from `s` halts within `fuel` steps, and halts only in `Closed`
with `c.Close()` called exactly once. -/
def allRunsClose : Nat → ConnState → Bool
  | 0, _ => false
  | fuel + 1, s =>
    if next s = [] then decide (phase s = Phase.closed ∧ s.closeCalls = 1)
    else (next s).all (allRunsClose fuel)

/-- The value the counter of the `sync.WaitGroup` has at a given control state: the number
of flows whose `wg.Add(1)` has run and whose `wg.Done()` has not. -/
def expectedWg (m : MainPc) (o i : Flow) : Int :=
  (if m ≠ MainPc.entry ∧ m ≠ MainPc.registered ∧ o ≠ Flow.done then 1 else 0)
    + (if m ≠ MainPc.entry ∧ m ≠ MainPc.registered ∧ m ≠ MainPc.added1 ∧ m ≠ MainPc.spawned1
          ∧ i ≠ Flow.done then 1 else 0)

/-- The number of `c.Close()` calls made at a given program point. -/
def expectedCloses (m : MainPc) : Nat :=
  if m = MainPc.returned then 1 else 0

/-- Control states that occur: a flow is launched exactly from its `go` statement on, and
`wg.Wait()` has been passed only with both flows done. -/
def controlOk (m : MainPc) (o i : Flow) : Bool :=
  decide ((o = Flow.notStarted) ↔ (m = MainPc.entry ∨ m = MainPc.registered ∨ m = MainPc.added1))
    && decide ((i = Flow.notStarted) ↔ (m = MainPc.entry ∨ m = MainPc.registered
          ∨ m = MainPc.added1 ∨ m = MainPc.spawned1 ∨ m = MainPc.added2))
    && decide ((m = MainPc.returning ∨ m = MainPc.returned) → (o = Flow.done ∧ i = Flow.done))

/-- The relation between program point, flows, counter and close count that holds along
every run. -/
def inv (s : ConnState) : Bool :=
  decide (s.wg = expectedWg s.main s.outbound s.inbound)
    && decide (s.closeCalls = expectedCloses s.main)
    && controlOk s.main s.outbound s.inbound

/-- The state determined by a control state under `inv`. -/
def canon (m : MainPc) (o i : Flow) : ConnState :=
  ⟨m, o, i, expectedWg m o i, expectedCloses m⟩

end Lifecycle

section Sample

/-- The domain records of the sample instance: every record is a number. -/
abbrev SampleValue := Value Nat Nat Nat Nat Nat Nat

/-- Wire code of a tag in the sample instance. -/
def sampleTagCode (tag : String) : UInt8 :=
  if tag = "event" then 1 else if tag = "action" then 2 else if tag = "sub" then 3
  else if tag = "unsub" then 4 else if tag = "def" then 5 else if tag = "" then 0 else 9

/-- Tag of a wire code in the sample instance; codes outside the vocabulary read as
`"bogus"`. -/
def sampleTagName (code : UInt8) : String :=
  if code = 1 then "event" else if code = 2 then "action" else if code = 3 then "sub"
  else if code = 4 then "unsub" else if code = 5 then "def" else "bogus"

/-- The number held by a value of the sample instance. -/
def sampleNumber : SampleValue → Nat
  | Value.nil => 0
  | Value.event n => n
  | Value.action n => n
  | Value.subscription n => n
  | Value.unsubscription n => n
  | Value.definition n => n
  | Value.other n => n

/-- A sample instance of the library parameters, on which the loops can be run: a frame is
a tag code followed by one payload byte, the record 255 stands for a payload that
`json.Marshal` rejects (an unsupported value), and frames of any other length fail to
parse. -/
def sampleLibs : Libs Nat Nat Nat Nat Nat Nat where
  marshal := fun p =>
    if sampleNumber p.payload = 255 then Except.error "json: unsupported value"
    else Except.ok [sampleTagCode p.type, UInt8.ofNat (sampleNumber p.payload)]
  unmarshal := fun b =>
    match b with
    | [t, n] => Except.ok ⟨sampleTagName t, Value.other n.toNat⟩
    | _ => Except.error "unexpected end of JSON input"
  decodeEvent := sampleNumber
  decodeAction := sampleNumber
  decodeSubscription := sampleNumber
  decodeUnsubscription := sampleNumber
  decodeDefinition := sampleNumber

end Sample

/-! ## Lemmas on the two loops -/

section LoopLemmas

variable {E A S U D J : Type}

theorem outboundLoop_cons_ok (lib : Libs E A S U D J) (writeErr : Nat → Option Err)
    (packet : Packet E A S U D J) (n : Nat) (m : Value E A S U D J)
    (rest : List (Value E A S U D J)) (h : writeErr n = none) :
    outboundLoop lib writeErr packet n (m :: rest)
      = ⟨(marshalStep lib (encodeSwitch packet m).1).1
            :: (outboundLoop lib writeErr (encodeSwitch packet m).1 (n + 1) rest).writes,
          (outboundLoop lib writeErr (encodeSwitch packet m).1 (n + 1) rest).consumed + 1,
          (encodeSwitch packet m).2 ++ (marshalStep lib (encodeSwitch packet m).1).2
            ++ (outboundLoop lib writeErr (encodeSwitch packet m).1 (n + 1) rest).log,
          (outboundLoop lib writeErr (encodeSwitch packet m).1 (n + 1) rest).stop⟩ := by
  simp [outboundLoop, h]

theorem outboundLoop_cons_fail (lib : Libs E A S U D J) (writeErr : Nat → Option Err)
    (packet : Packet E A S U D J) (n : Nat) (m : Value E A S U D J)
    (rest : List (Value E A S U D J)) (err : Err) (h : writeErr n = some err) :
    outboundLoop lib writeErr packet n (m :: rest)
      = ⟨[(marshalStep lib (encodeSwitch packet m).1).1], 1,
          (encodeSwitch packet m).2 ++ (marshalStep lib (encodeSwitch packet m).1).2
            ++ [LogEntry.warning err],
          OutStop.writeFailed⟩ := by
  simp [outboundLoop, h]

/-- Whatever the write does, the frame offered first is the serialisation of the packet
the type switch leaves in `packet`. -/
theorem outboundLoop_head (lib : Libs E A S U D J) (writeErr : Nat → Option Err)
    (packet : Packet E A S U D J) (n : Nat) (m : Value E A S U D J)
    (rest : List (Value E A S U D J)) :
    (outboundLoop lib writeErr packet n (m :: rest)).writes.head?
      = some (marshalStep lib (encodeSwitch packet m).1).1 := by
  cases h : writeErr n with
  | none => rw [outboundLoop_cons_ok lib writeErr packet n m rest h]; rfl
  | some err => rw [outboundLoop_cons_fail lib writeErr packet n m rest err h]; rfl

/-- A message without a case in the type switch leaves `packet` as it was, and the loop
goes on to serialise and write that stale packet. -/
theorem outboundLoop_untagged (lib : Libs E A S U D J) (writeErr : Nat → Option Err)
    (packet : Packet E A S U D J) (n : Nat) (m : Value E A S U D J)
    (rest : List (Value E A S U D J)) (hm : hasOutboundTag m = false) :
    (encodeSwitch packet m).1 = packet ∧
    (outboundLoop lib writeErr packet n (m :: rest)).writes.head?
      = some (marshalStep lib packet).1 := by
  have h1 : (encodeSwitch packet m).1 = packet := by
    cases m <;> simp_all [encodeSwitch, hasOutboundTag]
  refine ⟨h1, ?_⟩
  rw [outboundLoop_head, h1]

/-- When `json.Marshal` fails, the frame handed to the socket is the nil slice. -/
theorem outboundLoop_marshal_error (lib : Libs E A S U D J) (writeErr : Nat → Option Err)
    (packet : Packet E A S U D J) (n : Nat) (m : Value E A S U D J)
    (rest : List (Value E A S U D J)) (err : Err)
    (h : lib.marshal (encodeSwitch packet m).1 = Except.error err) :
    (outboundLoop lib writeErr packet n (m :: rest)).writes.head? = some [] := by
  rw [outboundLoop_head]
  simp [marshalStep, h]

theorem outboundLoop_all_ok (lib : Libs E A S U D J) (writeErr : Nat → Option Err) :
    ∀ (queue : List (Value E A S U D J)) (packet : Packet E A S U D J) (n : Nat),
      (∀ i, i < queue.length → writeErr (n + i) = none) →
      (outboundLoop lib writeErr packet n queue).stop = OutStop.queueClosed
        ∧ (outboundLoop lib writeErr packet n queue).consumed = queue.length
        ∧ (outboundLoop lib writeErr packet n queue).writes.length = queue.length := by
  intro queue
  induction queue with
  | nil => intro packet n _; simp [outboundLoop]
  | cons m rest ih =>
    intro packet n h
    have h0 : writeErr n = none := by simpa using h 0 (by simp)
    have hrest : ∀ i, i < rest.length → writeErr (n + 1 + i) = none := by
      intro i hi
      have := h (i + 1) (by simpa using hi)
      simpa [Nat.add_assoc, Nat.add_comm 1 i] using this
    obtain ⟨h1, h2, h3⟩ := ih (encodeSwitch packet m).1 (n + 1) hrest
    rw [outboundLoop_cons_ok lib writeErr packet n m rest h0]
    simp [h1, h2, h3]

theorem outboundLoop_first_failure (lib : Libs E A S U D J) (writeErr : Nat → Option Err) :
    ∀ (queue : List (Value E A S U D J)) (packet : Packet E A S U D J) (n k : Nat) (err : Err),
      k < queue.length → (∀ i, i < k → writeErr (n + i) = none) → writeErr (n + k) = some err →
      (outboundLoop lib writeErr packet n queue).stop = OutStop.writeFailed
        ∧ (outboundLoop lib writeErr packet n queue).consumed = k + 1
        ∧ (outboundLoop lib writeErr packet n queue).writes.length = k + 1 := by
  intro queue
  induction queue with
  | nil => intro packet n k err hk; simp at hk
  | cons m rest ih =>
    intro packet n k err hk hpre hfail
    cases k with
    | zero =>
      have h0 : writeErr n = some err := by simpa using hfail
      rw [outboundLoop_cons_fail lib writeErr packet n m rest err h0]
      simp
    | succ k =>
      have h0 : writeErr n = none := by simpa using hpre 0 (by simp)
      have hk1 : k < rest.length := by simpa using hk
      have hpre1 : ∀ i, i < k → writeErr (n + 1 + i) = none := by
        intro i hi
        have := hpre (i + 1) (by omega)
        simpa [Nat.add_assoc, Nat.add_comm 1 i] using this
      have hfail1 : writeErr (n + 1 + k) = some err := by
        simpa [Nat.add_assoc, Nat.add_comm 1 k] using hfail
      obtain ⟨h1, h2, h3⟩ := ih (encodeSwitch packet m).1 (n + 1) k err hk1 hpre1 hfail1
      rw [outboundLoop_cons_ok lib writeErr packet n m rest h0]
      simp [h1, h2, h3]

theorem inboundLoop_text_ok (lib : Libs E A S U D J) (dp : Value E A S U D J) (data : Bytes)
    (packet : Packet E A S U D J) (rest : List ReadResult)
    (h : lib.unmarshal data = Except.ok packet) :
    inboundLoop lib dp (ReadResult.message TextMessage data :: rest)
      = ⟨decodeSwitch lib dp packet :: (inboundLoop lib (decodeSwitch lib dp packet) rest).sent,
          (inboundLoop lib (decodeSwitch lib dp packet) rest).framesRead + 1,
          (inboundLoop lib (decodeSwitch lib dp packet) rest).log,
          (inboundLoop lib (decodeSwitch lib dp packet) rest).stop⟩ := by
  simp [inboundLoop, h]

theorem inboundLoop_text_error (lib : Libs E A S U D J) (dp : Value E A S U D J) (data : Bytes)
    (err : Err) (rest : List ReadResult) (h : lib.unmarshal data = Except.error err) :
    inboundLoop lib dp (ReadResult.message TextMessage data :: rest)
      = ⟨(inboundLoop lib dp rest).sent, (inboundLoop lib dp rest).framesRead + 1,
          LogEntry.warning err :: (inboundLoop lib dp rest).log,
          (inboundLoop lib dp rest).stop⟩ := by
  simp [inboundLoop, h]

/-- A text frame whose envelope parses with a tag outside the five known ones makes the
loop send the value `dispatcherPacket` already held. -/
theorem inboundLoop_unknown_tag (lib : Libs E A S U D J) (dp : Value E A S U D J) (data : Bytes)
    (packet : Packet E A S U D J) (rest : List ReadResult)
    (h : lib.unmarshal data = Except.ok packet)
    (h1 : packet.type ≠ "event") (h2 : packet.type ≠ "action") (h3 : packet.type ≠ "sub")
    (h4 : packet.type ≠ "unsub") (h5 : packet.type ≠ "def") :
    (inboundLoop lib dp (ReadResult.message TextMessage data :: rest)).sent
      = dp :: (inboundLoop lib dp rest).sent := by
  have hd : decodeSwitch lib dp packet = dp := by
    simp [decodeSwitch, h1, h2, h3, h4, h5]
  rw [inboundLoop_text_ok lib dp data packet rest h, hd]

/-- A frame whose envelope does not parse changes neither what is sent nor where the loop
ends, wherever it stands in the stream. -/
theorem inboundLoop_skip_malformed (lib : Libs E A S U D J) (data : Bytes) (err : Err)
    (h : lib.unmarshal data = Except.error err) (post : List ReadResult) :
    ∀ (pre : List ReadResult) (dp : Value E A S U D J),
      (inboundLoop lib dp (pre ++ ReadResult.message TextMessage data :: post)).sent
          = (inboundLoop lib dp (pre ++ post)).sent
        ∧ (inboundLoop lib dp (pre ++ ReadResult.message TextMessage data :: post)).stop
          = (inboundLoop lib dp (pre ++ post)).stop := by
  intro pre
  induction pre with
  | nil =>
    intro dp
    simp [inboundLoop_text_error lib dp data err post h]
  | cons r pre ih =>
    intro dp
    cases r with
    | error e => simp [inboundLoop]
    | message mt d =>
      by_cases hmt : mt = TextMessage
      · cases hu : lib.unmarshal d with
        | error e =>
          have := ih dp
          simp [inboundLoop, hmt, hu, this.1, this.2]
        | ok pk =>
          have := ih (decodeSwitch lib dp pk)
          simp [inboundLoop, hmt, hu, this.1, this.2]
      · have := ih dp
        simp [inboundLoop, hmt, this.1, this.2]

/-- The frame handed to the socket for a message whose envelope `json.Marshal` serialises
is that serialisation. -/
theorem outboundLoop_head_marshal (lib : Libs E A S U D J) (writeErr : Nat → Option Err)
    (packet : Packet E A S U D J) (n : Nat) (m : Value E A S U D J)
    (rest : List (Value E A S U D J)) (frame : Bytes)
    (h : lib.marshal (encodeSwitch packet m).1 = Except.ok frame) :
    (outboundLoop lib writeErr packet n (m :: rest)).writes.head? = some frame := by
  rw [outboundLoop_head]
  simp [marshalStep, h]

end LoopLemmas

/-! ## Lemmas on the lifecycle -/

section LifecycleLemmas

theorem inv_canon (s : ConnState) (h : inv s = true) :
    s = canon s.main s.outbound s.inbound ∧ controlOk s.main s.outbound s.inbound = true := by
  obtain ⟨m, o, i, wg, cc⟩ := s
  simp only [inv, Bool.and_eq_true, decide_eq_true_eq] at h
  obtain ⟨⟨h1, h2⟩, h3⟩ := h
  exact ⟨by simp [canon, h1, h2], h3⟩

theorem inv_next_canon (m : MainPc) (o i : Flow) (h : controlOk m o i = true) :
    ∀ t ∈ next (canon m o i), inv t = true := by
  revert h
  cases m <;> cases o <;> cases i <;> decide

theorem inv_step (s t : ConnState) (h : inv s = true) (hst : Step s t) : inv t = true := by
  obtain ⟨hs, hc⟩ := inv_canon s h
  rw [hs] at hst
  exact inv_next_canon s.main s.outbound s.inbound hc t hst

theorem reachable_inv (s : ConnState) (hs : Reachable s) : inv s = true := by
  induction hs with
  | init => decide
  | step _ hst ih => exact inv_step _ _ ih hst

/-- The lifecycle properties, checked on every control state that satisfies `controlOk`. -/
theorem lifecycle_canon (m : MainPc) (o i : Flow) (h : controlOk m o i = true) :
    (∀ t ∈ next (canon m o i), t.closeCalls ≠ (canon m o i).closeCalls →
        o.terminated = true ∧ i.terminated = true ∧ (canon m o i).closeCalls = 0
          ∧ t.closeCalls = 1 ∧ phase t = Phase.closed)
      ∧ (canon m o i).closeCalls ≤ 1
      ∧ (phase (canon m o i) = Phase.closed ↔ (canon m o i).closeCalls = 1)
      ∧ (o.terminated = true → i.terminated = true → allRunsClose 5 (canon m o i) = true)
      ∧ (phase (canon m o i) = Phase.closed → next (canon m o i) = []) := by
  revert h
  cases m <;> cases o <;> cases i <;> decide

end LifecycleLemmas

/-! ## The claims -/

section Claims

variable {E A S U D J : Type}

/-- C1, the code at a failing input: with every write succeeding, the queue
`[Event 7, Subscription 3]` makes the outbound flow write two frames, the encoding of the
event twice, and the queue `[Subscription 3]` makes it write the encoding of the zero
packet; the list of encodings of the tagged messages is one frame in the first case and
empty in the second. -/
theorem C1_untagged_message_is_written :
    (outboundFlow sampleLibs (fun _ => none)
        [Value.event 7, Value.subscription 3]).writes = [[1, 7], [1, 7]]
      ∧ (outboundFlow sampleLibs (fun _ => none)
        ([Value.event 7, Value.subscription 3].filter hasOutboundTag)).writes = [[1, 7]]
      ∧ (outboundFlow sampleLibs (fun _ => none) [Value.subscription 3]).writes = [[0, 0]]
      ∧ (outboundFlow sampleLibs (fun _ => none) [Value.subscription 3]).stop
          = OutStop.queueClosed := by
  decide

/-- C2, the code at a failing input: an action frame followed by a frame of type `bogus`
makes the inbound flow send the action twice, and a lone `bogus` frame makes it send the
nil value; in both cases the flow then waits for the next frame. -/
theorem C2_unknown_tag_resends_previous :
    (inboundFlow sampleLibs
        [ReadResult.message TextMessage [2, 7], ReadResult.message TextMessage [9, 1]]).sent
        = [Value.action 7, Value.action 7]
      ∧ (inboundFlow sampleLibs
        [ReadResult.message TextMessage [2, 7], ReadResult.message TextMessage [9, 1]]).stop
        = InStop.awaiting
      ∧ sampleLibs.unmarshal [9, 1] = Except.ok ⟨"bogus", Value.other 1⟩
      ∧ (inboundFlow sampleLibs [ReadResult.message TextMessage [9, 1]]).sent = [Value.nil] :=
  ⟨by decide, by decide, rfl, by decide⟩

/-- C3, the claim as stated fails.  An Event whose envelope `json.Marshal` rejects (the
sample record 255) has no round trip: the frame written for it is empty, it does not parse,
and the inbound flow sends nothing.  An Event whose record the two libraries do not
reproduce (the sample record 300, whose payload byte wraps to 44) comes back as a different
Event. -/
theorem C3_roundtrip_counterexample :
    sampleLibs.marshal (encodeSwitch Packet.zero (Value.event 255)).1
        = Except.error "json: unsupported value"
      ∧ (outboundFlow sampleLibs (fun _ => none) [Value.event 255]).writes = [[]]
      ∧ roundTrip sampleLibs [Value.event 255] = []
      ∧ roundTrip sampleLibs [Value.event 255] ≠ [Value.event 255]
      ∧ roundTrip sampleLibs [Value.event 300] = [Value.event 44]
      ∧ roundTrip sampleLibs [Value.event 300] ≠ [Value.event 300] :=
  ⟨rfl, by decide, by decide, by decide, by decide, by decide⟩

/-- C3 as amended: let `frame` parse to the envelope `p`.  For an Event `e` whose envelope
`json.Marshal` serialises to `frame`, with `p` carrying the type `event`: `frame` is what
the outbound loop hands to the socket for `e`, and the inbound loop reading `frame` sends
exactly one value for it, the Event that `mapstructure.Decode` leaves from the payload of
`p`; that value is `e` itself when this record is `e`.  Likewise for an Action with type
`action` and a Definition with type `def`.  This holds whatever the loop variables held
before and whatever follows. -/
theorem C3_roundtrip_through_wire (lib : Libs E A S U D J) (writeErr : Nat → Option Err)
    (packet : Packet E A S U D J) (n : Nat) (rest : List (Value E A S U D J))
    (dispatcherPacket : Value E A S U D J) (reads : List ReadResult)
    (frame : Bytes) (p : Packet E A S U D J) (hp : lib.unmarshal frame = Except.ok p) :
    (∀ e : E, lib.marshal ⟨"event", Value.event e⟩ = Except.ok frame → p.type = "event" →
        (outboundLoop lib writeErr packet n (Value.event e :: rest)).writes.head? = some frame
          ∧ (inboundLoop lib dispatcherPacket (ReadResult.message TextMessage frame :: reads)).sent
              = Value.event (lib.decodeEvent p.payload)
                :: (inboundLoop lib (Value.event (lib.decodeEvent p.payload)) reads).sent
          ∧ (lib.decodeEvent p.payload = e →
              (inboundLoop lib dispatcherPacket
                (ReadResult.message TextMessage frame :: reads)).sent
                = Value.event e :: (inboundLoop lib (Value.event e) reads).sent))
      ∧ (∀ a : A, lib.marshal ⟨"action", Value.action a⟩ = Except.ok frame → p.type = "action" →
        (outboundLoop lib writeErr packet n (Value.action a :: rest)).writes.head? = some frame
          ∧ (inboundLoop lib dispatcherPacket (ReadResult.message TextMessage frame :: reads)).sent
              = Value.action (lib.decodeAction p.payload)
                :: (inboundLoop lib (Value.action (lib.decodeAction p.payload)) reads).sent
          ∧ (lib.decodeAction p.payload = a →
              (inboundLoop lib dispatcherPacket
                (ReadResult.message TextMessage frame :: reads)).sent
                = Value.action a :: (inboundLoop lib (Value.action a) reads).sent))
      ∧ (∀ d : D, lib.marshal ⟨"def", Value.definition d⟩ = Except.ok frame → p.type = "def" →
        (outboundLoop lib writeErr packet n (Value.definition d :: rest)).writes.head?
            = some frame
          ∧ (inboundLoop lib dispatcherPacket (ReadResult.message TextMessage frame :: reads)).sent
              = Value.definition (lib.decodeDefinition p.payload)
                :: (inboundLoop lib (Value.definition (lib.decodeDefinition p.payload)) reads).sent
          ∧ (lib.decodeDefinition p.payload = d →
              (inboundLoop lib dispatcherPacket
                (ReadResult.message TextMessage frame :: reads)).sent
                = Value.definition d :: (inboundLoop lib (Value.definition d) reads).sent)) := by
  have hin := inboundLoop_text_ok lib dispatcherPacket frame p reads hp
  refine ⟨fun e hm ht => ?_, fun a hm ht => ?_, fun d hm ht => ?_⟩
  · have hsw : decodeSwitch lib dispatcherPacket p = Value.event (lib.decodeEvent p.payload) := by
      simp [decodeSwitch, ht]
    have hsent : (inboundLoop lib dispatcherPacket
          (ReadResult.message TextMessage frame :: reads)).sent
        = Value.event (lib.decodeEvent p.payload)
          :: (inboundLoop lib (Value.event (lib.decodeEvent p.payload)) reads).sent := by
      rw [hin, hsw]
    refine ⟨outboundLoop_head_marshal lib writeErr packet n _ rest frame hm, hsent, ?_⟩
    intro hd
    rw [hsent, hd]
  · have hsw : decodeSwitch lib dispatcherPacket p
        = Value.action (lib.decodeAction p.payload) := by
      simp [decodeSwitch, ht]
    have hsent : (inboundLoop lib dispatcherPacket
          (ReadResult.message TextMessage frame :: reads)).sent
        = Value.action (lib.decodeAction p.payload)
          :: (inboundLoop lib (Value.action (lib.decodeAction p.payload)) reads).sent := by
      rw [hin, hsw]
    refine ⟨outboundLoop_head_marshal lib writeErr packet n _ rest frame hm, hsent, ?_⟩
    intro hd
    rw [hsent, hd]
  · have hsw : decodeSwitch lib dispatcherPacket p
        = Value.definition (lib.decodeDefinition p.payload) := by
      simp [decodeSwitch, ht]
    have hsent : (inboundLoop lib dispatcherPacket
          (ReadResult.message TextMessage frame :: reads)).sent
        = Value.definition (lib.decodeDefinition p.payload)
          :: (inboundLoop lib (Value.definition (lib.decodeDefinition p.payload)) reads).sent := by
      rw [hin, hsw]
    refine ⟨outboundLoop_head_marshal lib writeErr packet n _ rest frame hm, hsent, ?_⟩
    intro hd
    rw [hsent, hd]

/-- C3 as amended, at a concrete input: the sample envelope of `Event 7` serialises to the
frame `[1, 7]`, which parses back with type `event` and a payload that decodes to 7; the
outbound loop writes that frame and the inbound loop, whatever it held, sends `Event 7`. -/
theorem C3_roundtrip_through_wire_witness :
    sampleLibs.unmarshal [1, 7] = Except.ok ⟨"event", Value.other 7⟩
      ∧ sampleLibs.marshal ⟨"event", Value.event 7⟩ = Except.ok [1, 7]
      ∧ (outboundLoop sampleLibs (fun _ => none) ⟨"action", Value.action 2⟩ 0
          [Value.event 7]).writes.head? = some [1, 7]
      ∧ (inboundLoop sampleLibs (Value.subscription 1)
          [ReadResult.message TextMessage [1, 7]]).sent
          = Value.event 7 :: (inboundLoop sampleLibs (Value.event 7) []).sent :=
  ⟨rfl, rfl,
    ((C3_roundtrip_through_wire sampleLibs (fun _ => none) ⟨"action", Value.action 2⟩ 0 []
      (Value.subscription 1) [] [1, 7] ⟨"event", Value.other 7⟩ rfl).1 7 rfl rfl).1,
    ((C3_roundtrip_through_wire sampleLibs (fun _ => none) ⟨"action", Value.action 2⟩ 0 []
      (Value.subscription 1) [] [1, 7] ⟨"event", Value.other 7⟩ rfl).1 7 rfl rfl).2.2 rfl⟩

/-- C4, the claim as stated fails: for the Event whose envelope `json.Marshal` rejects (the
sample record 255), alone or after another message, the type switch builds the envelope of
type `event` but the frame written for it is the empty one, not a serialised envelope. -/
theorem C4_tag_from_variant_counterexample :
    (encodeSwitch (Packet.zero : Packet Nat Nat Nat Nat Nat Nat) (Value.event 255)).1
        = ⟨"event", Value.event 255⟩
      ∧ sampleLibs.marshal ⟨"event", Value.event 255⟩ = Except.error "json: unsupported value"
      ∧ (outboundFlow sampleLibs (fun _ => none) [Value.event 255]).writes = [[]]
      ∧ (outboundFlow sampleLibs (fun _ => none)
          [Value.definition 4, Value.event 255]).writes = [[5, 4], []] :=
  ⟨rfl, rfl, by decide, by decide⟩

/-- C4 as amended: for an Event, an Action or a Definition the type switch builds the
envelope with type `event`, `action` or `def` and with the message itself as payload, and
when `json.Marshal` serialises that envelope to `frame`, `frame` is what is handed to the
socket for the message; all this whatever packet an earlier iteration left behind, however
many writes came before and whatever follows. -/
theorem C4_tag_from_variant (lib : Libs E A S U D J) (writeErr : Nat → Option Err)
    (packet : Packet E A S U D J) (n : Nat) (rest : List (Value E A S U D J)) (frame : Bytes) :
    (∀ e : E, (encodeSwitch packet (Value.event e)).1 = ⟨"event", Value.event e⟩
        ∧ (lib.marshal ⟨"event", Value.event e⟩ = Except.ok frame →
          (outboundLoop lib writeErr packet n (Value.event e :: rest)).writes.head?
            = some frame))
      ∧ (∀ a : A, (encodeSwitch packet (Value.action a)).1 = ⟨"action", Value.action a⟩
        ∧ (lib.marshal ⟨"action", Value.action a⟩ = Except.ok frame →
          (outboundLoop lib writeErr packet n (Value.action a :: rest)).writes.head?
            = some frame))
      ∧ (∀ d : D, (encodeSwitch packet (Value.definition d)).1 = ⟨"def", Value.definition d⟩
        ∧ (lib.marshal ⟨"def", Value.definition d⟩ = Except.ok frame →
          (outboundLoop lib writeErr packet n (Value.definition d :: rest)).writes.head?
            = some frame)) :=
  ⟨fun _ => ⟨rfl, fun h => outboundLoop_head_marshal lib writeErr packet n _ rest frame h⟩,
    fun _ => ⟨rfl, fun h => outboundLoop_head_marshal lib writeErr packet n _ rest frame h⟩,
    fun _ => ⟨rfl, fun h => outboundLoop_head_marshal lib writeErr packet n _ rest frame h⟩⟩

/-- C4 as amended, at a concrete input: after an Action, the sample envelope of
`Definition 4` serialises to `[5, 4]` and that frame is written for it. -/
theorem C4_tag_from_variant_witness :
    sampleLibs.marshal ⟨"def", Value.definition 4⟩ = Except.ok [5, 4]
      ∧ (outboundLoop sampleLibs (fun _ => none) ⟨"action", Value.action 2⟩ 1
          [Value.definition 4, Value.subscription 9]).writes.head? = some [5, 4] :=
  ⟨rfl,
    ((C4_tag_from_variant sampleLibs (fun _ => none) ⟨"action", Value.action 2⟩ 1
      [Value.subscription 9] [5, 4]).2.2 4).2 rfl⟩

/-- C5: for a text frame whose envelope parses to `packet`, the inbound loop sends exactly
one value for the frame before it turns to the later frames, and that value is an Event,
Action, Subscription, Unsubscription or Definition (decoded from the payload) according to
whether the type is `event`, `action`, `sub`, `unsub` or `def`, whatever value an earlier
iteration left in `dispatcherPacket`. -/
theorem C5_dispatch_on_tag (lib : Libs E A S U D J) (dispatcherPacket : Value E A S U D J)
    (data : Bytes) (packet : Packet E A S U D J) (rest : List ReadResult)
    (h : lib.unmarshal data = Except.ok packet) :
    (∃ v, (inboundLoop lib dispatcherPacket (ReadResult.message TextMessage data :: rest)).sent
          = v :: (inboundLoop lib v rest).sent
        ∧ (packet.type = "event" → v = Value.event (lib.decodeEvent packet.payload))
        ∧ (packet.type = "action" → v = Value.action (lib.decodeAction packet.payload))
        ∧ (packet.type = "sub"
            → v = Value.subscription (lib.decodeSubscription packet.payload))
        ∧ (packet.type = "unsub"
            → v = Value.unsubscription (lib.decodeUnsubscription packet.payload))
        ∧ (packet.type = "def" → v = Value.definition (lib.decodeDefinition packet.payload))) := by
  refine ⟨decodeSwitch lib dispatcherPacket packet, ?_, ?_, ?_, ?_, ?_, ?_⟩
  · rw [inboundLoop_text_ok lib dispatcherPacket data packet rest h]
  all_goals
    intro ht
    simp [decodeSwitch, ht]

/-- C5 at a concrete input: the sample frame `[1, 7]` parses to an `event` envelope and
the inbound loop sends one Event for it. -/
theorem C5_dispatch_on_tag_witness :
    sampleLibs.unmarshal [1, 7] = Except.ok ⟨"event", Value.other 7⟩
      ∧ ∃ v, (inboundLoop sampleLibs (Value.action 3)
            [ReadResult.message TextMessage [1, 7]]).sent = v :: (inboundLoop sampleLibs v []).sent
          ∧ v = Value.event 7 :=
  ⟨rfl,
    (C5_dispatch_on_tag sampleLibs (Value.action 3) [1, 7] ⟨"event", Value.other 7⟩ [] rfl).elim
      (fun v hv => ⟨v, hv.1, hv.2.1 rfl⟩)⟩

/-- C6, the code at a failing input: a request whose upgrade fails makes the handler log
the error at fatal level and exit the process with code 1; no endpoint is created, and
the request that follows is not handled, although the same request alone is. -/
theorem C6_upgrade_failure_exits_process :
    serve [some "websocket: bad handshake", none]
        = ⟨ProcessStatus.exited 1,
            [HandlerLog.debug "Connection received",
              HandlerLog.fatal "websocket: bad handshake"], 1, 0, 0⟩
      ∧ (serve [none]).handled = 1 ∧ (serve [none]).endpoints = 1
      ∧ (serve [none]).status = ProcessStatus.running := by
  decide

/-- C7, the code at a failing input: when `json.Marshal` rejects the envelope of the first
message, the outbound flow logs the error and then hands the nil slice to the socket, an
empty text frame, before it goes on with the second message. -/
theorem C7_marshal_failure_writes_empty_frame :
    sampleLibs.marshal ⟨"event", Value.event 255⟩ = Except.error "json: unsupported value"
      ∧ (outboundFlow sampleLibs (fun _ => none)
          [Value.event 255, Value.action 1]).writes = [[], [2, 1]]
      ∧ (outboundFlow sampleLibs (fun _ => none)
          [Value.event 255, Value.action 1]).log = [LogEntry.warning "json: unsupported value"]
      ∧ (outboundFlow sampleLibs (fun _ => none)
          [Value.event 255, Value.action 1]).consumed = 2 :=
  ⟨rfl, by decide, by decide, by decide⟩

/-- C8: a text frame whose envelope fails to parse makes the inbound loop log the error,
send nothing for the frame and carry on with the later frames exactly as it would have
without the frame (same values sent, same end); with nothing after the frame the flow is
waiting in the next read.  For the whole flow: removing the frame from any position of the
stream changes neither the values sent nor where the flow ends. -/
theorem C8_malformed_frame_skipped (lib : Libs E A S U D J) (data : Bytes) (err : Err)
    (h : lib.unmarshal data = Except.error err) (dispatcherPacket : Value E A S U D J)
    (pre post : List ReadResult) :
    inboundLoop lib dispatcherPacket (ReadResult.message TextMessage data :: post)
        = ⟨(inboundLoop lib dispatcherPacket post).sent,
            (inboundLoop lib dispatcherPacket post).framesRead + 1,
            LogEntry.warning err :: (inboundLoop lib dispatcherPacket post).log,
            (inboundLoop lib dispatcherPacket post).stop⟩
      ∧ (inboundLoop lib dispatcherPacket [ReadResult.message TextMessage data]).stop
          = InStop.awaiting
      ∧ (inboundFlow lib (pre ++ ReadResult.message TextMessage data :: post)).sent
          = (inboundFlow lib (pre ++ post)).sent
      ∧ (inboundFlow lib (pre ++ ReadResult.message TextMessage data :: post)).stop
          = (inboundFlow lib (pre ++ post)).stop := by
  refine ⟨inboundLoop_text_error lib dispatcherPacket data err post h, ?_, ?_, ?_⟩
  · rw [inboundLoop_text_error lib dispatcherPacket data err [] h]
    rfl
  · exact (inboundLoop_skip_malformed lib data err h post pre Value.nil).1
  · exact (inboundLoop_skip_malformed lib data err h post pre Value.nil).2

/-- C8 at a concrete input: the one-byte sample frame does not parse, and between an
action frame and an event frame it leaves the values sent unchanged. -/
theorem C8_malformed_frame_skipped_witness :
    sampleLibs.unmarshal [7] = Except.error "unexpected end of JSON input"
      ∧ (inboundFlow sampleLibs ([ReadResult.message TextMessage [2, 4]]
            ++ ReadResult.message TextMessage [7] :: [ReadResult.message TextMessage [1, 5]])).sent
          = (inboundFlow sampleLibs ([ReadResult.message TextMessage [2, 4]]
            ++ [ReadResult.message TextMessage [1, 5]])).sent :=
  ⟨rfl,
    (C8_malformed_frame_skipped sampleLibs [7] "unexpected end of JSON input" rfl Value.nil
      [ReadResult.message TextMessage [2, 4]] [ReadResult.message TextMessage [1, 5]]).2.2.1⟩

/-- C9: let the first `k` writes succeed.  If the
queue holds exactly `k` messages, the outbound flow consumes them all, makes `k` writes
and ends because the queue is closed.  If the queue holds more and write number `k` fails,
the flow ends on that failure having consumed `k + 1` messages and made `k + 1` writes:
the failed write is the last one (no retry) and no later message is received. -/
theorem C9_stops_at_first_failed_write (lib : Libs E A S U D J) (writeErr : Nat → Option Err)
    (queue : List (Value E A S U D J)) (k : Nat) (hpre : ∀ i, i < k → writeErr i = none) :
    (k = queue.length →
        (outboundFlow lib writeErr queue).stop = OutStop.queueClosed
          ∧ (outboundFlow lib writeErr queue).consumed = queue.length
          ∧ (outboundFlow lib writeErr queue).writes.length = queue.length)
      ∧ (∀ err, k < queue.length → writeErr k = some err →
        (outboundFlow lib writeErr queue).stop = OutStop.writeFailed
          ∧ (outboundFlow lib writeErr queue).consumed = k + 1
          ∧ (outboundFlow lib writeErr queue).writes.length = k + 1) := by
  constructor
  · intro hkq
    apply outboundLoop_all_ok lib writeErr queue Packet.zero 0
    intro i hi
    simpa using hpre i (by omega)
  · intro err hlt hfail
    apply outboundLoop_first_failure lib writeErr queue Packet.zero 0 k err hlt
    · intro i hi
      simpa using hpre i hi
    · simpa using hfail

/-- C9 at a concrete input: of three messages, with the second write failing, two are
consumed and two writes are made. -/
theorem C9_stops_at_first_failed_write_witness :
    (∀ i, i < 1 → (fun n => if n = 1 then some "broken pipe" else none) i = none)
      ∧ (outboundFlow sampleLibs (fun n => if n = 1 then some "broken pipe" else none)
          [Value.event 1, Value.action 2, Value.definition 3]).stop = OutStop.writeFailed
      ∧ (outboundFlow sampleLibs (fun n => if n = 1 then some "broken pipe" else none)
          [Value.event 1, Value.action 2, Value.definition 3]).consumed = 2
      ∧ (outboundFlow sampleLibs (fun n => if n = 1 then some "broken pipe" else none)
          [Value.event 1, Value.action 2, Value.definition 3]).writes.length = 2 :=
  ⟨fun i hi => by simp; omega,
    (C9_stops_at_first_failed_write sampleLibs
      (fun n => if n = 1 then some "broken pipe" else none)
      [Value.event 1, Value.action 2, Value.definition 3] 1
      (fun i hi => by simp; omega)).2 "broken pipe" (by decide) rfl⟩

end Claims

section LifecycleClaim

/-- A state in which both flows have left their loops while `startConnection` waits. -/
theorem reachable_both_finished :
    Reachable ⟨MainPc.waiting, Flow.finished, Flow.finished, 2, 0⟩ := by
  have h0 := Reachable.init
  have h1 : Reachable ⟨MainPc.registered, Flow.notStarted, Flow.notStarted, 0, 0⟩ :=
    Reachable.step h0 (by decide)
  have h2 : Reachable ⟨MainPc.added1, Flow.notStarted, Flow.notStarted, 1, 0⟩ :=
    Reachable.step h1 (by decide)
  have h3 : Reachable ⟨MainPc.spawned1, Flow.running, Flow.notStarted, 1, 0⟩ :=
    Reachable.step h2 (by decide)
  have h4 : Reachable ⟨MainPc.added2, Flow.running, Flow.notStarted, 2, 0⟩ :=
    Reachable.step h3 (by decide)
  have h5 : Reachable ⟨MainPc.waiting, Flow.running, Flow.running, 2, 0⟩ :=
    Reachable.step h4 (by decide)
  have h6 : Reachable ⟨MainPc.waiting, Flow.finished, Flow.running, 2, 0⟩ :=
    Reachable.step h5 (by decide)
  exact Reachable.step h6 (by decide)

/-- C10: in every state `s` that a run of `startConnection` passes through:
a step that calls `c.Close()` starts where both flows have terminated and no call was made
before, and it enters `Closed`; at most one call has been made; the state is `Closed`
exactly when one call has been made; once both flows have terminated every run halts within
five steps, and only in `Closed` with exactly one call made; and `Closed` has no
successor. -/
theorem C10_released_once_after_both_flows (s : ConnState) (hs : Reachable s) :
    (∀ t, Step s t → t.closeCalls ≠ s.closeCalls →
        s.outbound.terminated = true ∧ s.inbound.terminated = true ∧ s.closeCalls = 0
          ∧ t.closeCalls = 1 ∧ phase t = Phase.closed)
      ∧ s.closeCalls ≤ 1
      ∧ (phase s = Phase.closed ↔ s.closeCalls = 1)
      ∧ (s.outbound.terminated = true → s.inbound.terminated = true
          → allRunsClose 5 s = true)
      ∧ (phase s = Phase.closed → ∀ t, ¬ Step s t) := by
  obtain ⟨hc, hok⟩ := inv_canon s (reachable_inv s hs)
  obtain ⟨h1, h2, h3, h4, h5⟩ := lifecycle_canon s.main s.outbound s.inbound hok
  rw [← hc] at h1 h2 h3 h4 h5
  refine ⟨fun t ht => h1 t ht, h2, h3, h4, ?_⟩
  intro hp t ht
  have hnil := h5 hp
  unfold Step at ht
  rw [hnil] at ht
  simp at ht

/-- C10 at a concrete input: from the reachable state in which both flows have left their
loops, every run halts in `Closed` with `c.Close()` called once. -/
theorem C10_released_once_after_both_flows_witness :
    Reachable ⟨MainPc.waiting, Flow.finished, Flow.finished, 2, 0⟩
      ∧ allRunsClose 5 ⟨MainPc.waiting, Flow.finished, Flow.finished, 2, 0⟩ = true :=
  ⟨reachable_both_finished,
    (C10_released_once_after_both_flows ⟨MainPc.waiting, Flow.finished, Flow.finished, 2, 0⟩
      reachable_both_finished).2.2.2.1 rfl rfl⟩

end LifecycleClaim

end Rotonde
